import Mathlib

/-!
Verification of the Otto Wilde G32 connection manager
(`custom_components/otto_wilde_g32/api.py`).

The development shallowly embeds the parts of the Python source that the
properties below are about:

* the packet codec `_parse_temp_value` / `_parse_binary_data` (hex strings
  are modelled as `List Char`, byte buffers as `List Nat`, Python floats as
  `ℚ` — all values produced here are decimal fractions on which rational
  and IEEE-754 comparison against the used bounds agree);
* the per-device TCP listener loop `_tcp_listener_loop` as a step function
  `loopIter` on an explicit per-device state, driven by the observable
  outcome of one connection attempt;
* the connection manager (`enable_grill`, `_start_listener_for_grill`,
  `_stop_listener_for_grill`, `sync_counter`, counters) as a transition
  system `mgrStep` on `MgrState`, where asyncio tasks are explicit records
  with a `done` flag.

Python exceptions are modelled with `Except PyErr` where a claim is about
error behaviour, and by `Option` results where the source catches the
exception itself.
-/

namespace OttoWildeG32

/-! ## Constants (const.py) -/

def HEARTBEAT_TIMEOUT_SECONDS : Nat := 90
def RAPID_RETRY_ATTEMPTS : Nat := 5
def RAPID_RETRY_DELAY_SECONDS : Nat := 2
def INITIAL_RETRY_DELAY_SECONDS : Nat := 30
def MAX_RETRY_DELAY_SECONDS : Nat := 300
def OVERALL_TIMEOUT_MINUTES : Nat := 30

/-- `PACKET_HEADER = b'\xa3\x3a'` as the two byte values. -/
def PACKET_HEADER : List Nat := [0xa3, 0x3a]

def PACKET_SIZE : Nat := 51

/-! ## Hex encoding (Python `bytes.hex()` and `int(s, 16)`)

`bytes.hex()` produces two lowercase hex characters per byte.  `int(s, 16)`
raises `ValueError` on an empty or non-hex-digit string; on the strings the
source feeds it (slices of a `bytes.hex()` result) the only non-digit case
is the empty slice, but we model rejection of any non-hex-digit character as
well (Python forms such as signs or whitespace cannot occur in `hex()`
output). -/

def hexChar (d : Nat) : Char :=
  "0123456789abcdef".toList.getD d 'x'

/-- Hex image of one byte, as produced by `bytes.hex()`. -/
def byteHex (b : Nat) : List Char :=
  [hexChar (b / 16), hexChar (b % 16)]

/-- `data.hex()` for a whole byte buffer. -/
def bytesHex (data : List Nat) : List Char :=
  data.flatMap byteHex

/-- Value of a single hex digit (both cases accepted, as by `int(s, 16)`). -/
def hexDigitVal (c : Char) : Option Nat :=
  let n := c.toNat
  if 48 ≤ n ∧ n ≤ 57 then some (n - 48)
  else if 97 ≤ n ∧ n ≤ 102 then some (n - 87)
  else if 65 ≤ n ∧ n ≤ 70 then some (n - 55)
  else none

def parseHexAux : List Char → Nat → Option Nat
  | [], acc => some acc
  | c :: cs, acc =>
      match hexDigitVal c with
      | some d => parseHexAux cs (16 * acc + d)
      | none => none

/-- `int(s, 16)` restricted to plain hex-digit strings; `none` models the
`ValueError` raised on an empty or malformed string. -/
def parseHexStr (s : List Char) : Option Nat :=
  if s = [] then none else parseHexAux s 0

/-- Python slice `s[a:b]` on a string (never raises). -/
def pySlice (l : List Char) (a b : Nat) : List Char :=
  (l.take b).drop a

/-! ## Packet codec (`_parse_temp_value`, `_parse_binary_data`) -/

/-- The `invalid_patterns` set from `_parse_temp_value`. -/
def sentinelStrs : List (List Char) :=
  [['9', '6', '0', '0'],
   ['f', 'f', 'f', 'f'],
   ['0', '0', '0', '0'],
   ['f', 'f', 'e', 'f'],
   ['f', 'e', 'f', 'f']]

/-- `_parse_temp_value(h)`: `None` on wrong length, on a sentinel pattern
(compared lowercased), on a hex-parse failure (the caught `ValueError`),
or on a computed value outside `[-50, 600]`; otherwise the value
`temp_whole * 10 + temp_decimal / 10.0`.  The computed value is written as
the single exact fraction `(100 * w + d) / 10`, which equals
`w * 10 + d / 10` (`tempValue_eq` below) but evaluates inside the kernel;
on these decimal fractions rational comparison against the bounds agrees
with the source's float comparison. -/
def parse_temp_value (h : List Char) : Option ℚ :=
  if h.length ≠ 4 then none
  else if h.map Char.toLower ∈ sentinelStrs then none
  else
    match parseHexStr (h.take 2), parseHexStr (h.drop 2) with
    | some w, some d =>
        let t : ℚ := mkRat (100 * w + d) 10
        if t < -50 ∨ 600 < t then none else some t
    | _, _ => none

/-- The dictionary built by `_parse_binary_data` (always 14 keys, hence
always truthy in the `if parsed_data := ...` walrus test). -/
structure Telemetry where
  raw_hex_dump : List Char
  zone_1 : Option ℚ
  zone_2 : Option ℚ
  zone_3 : Option ℚ
  zone_4 : Option ℚ
  probe_1 : Option ℚ
  probe_2 : Option ℚ
  probe_3 : Option ℚ
  probe_4 : Option ℚ
  gas_weight : Nat
  lid_open : Bool
  light_on : Bool
  gas_level : Nat
  gas_low : Bool
deriving DecidableEq

/-- Python exception kinds relevant to the codec. -/
inductive PyErr
  | valueError
  | indexError
  | typeError
  | otherError
deriving DecidableEq

/-- `int(s, 16)` as a fallible Python expression: `ValueError` on an empty
or malformed string. -/
def intHex (s : List Char) : Except PyErr Nat :=
  match parseHexStr s with
  | some n => Except.ok n
  | none => Except.error PyErr.valueError

/-- Body of the `try:` block of `_parse_binary_data`.  The dict literal is
evaluated left to right; only the three `int(...)` calls can raise, and the
`gas_low` entry re-parses the same slice as `gas_weight`, so its success is
determined by the `gas_weight` parse. -/
def parse_binary_body (data : List Nat) : Except PyErr Telemetry := do
  let hex := bytesHex data
  let gw ← intHex (pySlice hex 44 48)
  let gl ← intHex (pySlice hex 62 64)
  Except.ok
    { raw_hex_dump := hex
      zone_1 := parse_temp_value (pySlice hex 12 16)
      zone_2 := parse_temp_value (pySlice hex 16 20)
      zone_3 := parse_temp_value (pySlice hex 20 24)
      zone_4 := parse_temp_value (pySlice hex 24 28)
      probe_1 := parse_temp_value (pySlice hex 28 32)
      probe_2 := parse_temp_value (pySlice hex 32 36)
      probe_3 := parse_temp_value (pySlice hex 36 40)
      probe_4 := parse_temp_value (pySlice hex 40 44)
      gas_weight := gw
      lid_open := pySlice hex 48 50 = ['0', '1']
      light_on := pySlice hex 50 52 = ['0', '1']
      gas_level := gl
      gas_low := decide (gw < 2200) }

/-- `_parse_binary_data`: the `except (ValueError, IndexError)` clause
converts those two exceptions into `None`; any other exception would
propagate (modelled as `Except.error`). -/
def parse_binary_data (data : List Nat) : Except PyErr (Option Telemetry) :=
  match parse_binary_body data with
  | Except.ok r => Except.ok (some r)
  | Except.error PyErr.valueError => Except.ok none
  | Except.error PyErr.indexError => Except.ok none
  | Except.error e => Except.error e

/-! ## Stream framing (inner `while` of `_tcp_listener_loop`)

`streamRun buffer chunks` returns the records dispatched by the streaming
loop, starting from `buffer` (initially the first packet) with `chunks` the
successive results of later `reader.read(1024)` calls; once `chunks` is
exhausted, or on an empty chunk, the read returns no data and the loop
treats the connection as closed.  The grill stays enabled throughout
(disabling mid-stream is handled at the manager level). -/

/-- `buffer.find(PACKET_HEADER)`: index of the first occurrence of the
two-byte header, `none` for Python's `-1`. -/
def findHeader : List Nat → Option Nat
  | a :: b :: rest =>
      if a = 0xa3 ∧ b = 0x3a then some 0
      else (findHeader (b :: rest)).map (fun i => i + 1)
  | _ => none

def streamGo : Nat → List Nat → List (List Nat) → List Telemetry
  | 0, _, _ => []
  | fuel + 1, buffer, chunks =>
      match findHeader buffer with
      | some i =>
          if i + PACKET_SIZE ≤ buffer.length then
            (match parse_binary_data ((buffer.drop i).take PACKET_SIZE) with
              | Except.ok (some r) => [r]
              | _ => []) ++ streamGo fuel (buffer.drop (i + PACKET_SIZE)) chunks
          else
            match chunks with
            | [] => []
            | c :: cs => if c = [] then [] else streamGo fuel (buffer ++ c) cs
      | none =>
          match chunks with
          | [] => []
          | c :: cs => if c = [] then [] else streamGo fuel (buffer ++ c) cs

/-- The streaming loop.  Every iteration strictly decreases the measure
`buffer.length + (sum of chunk lengths) + (number of chunks)` — extracting a
packet removes `PACKET_SIZE ≥ 1` buffered bytes, and a read moves one chunk
into the buffer — so the fuel bound `measure + 1` is never exhausted and
`streamGo` runs the source loop to its natural completion. -/
def streamRun (buffer : List Nat) (chunks : List (List Nat)) : List Telemetry :=
  streamGo (buffer.length + (chunks.map List.length).sum + chunks.length + 1) buffer chunks

/-! ## Per-device listener state (`_tcp_listener_loop`)

`DevState` collects the per-device mutable state the loop reads and
writes: the `_enabled_grills[sn]` flag, the loop-local `rapid_retry_count`,
`_counters["tcp_connection_attempts"][sn]`,
`_counters["tcp_reconnect_counter"][sn]`, `_backoff_start_times[sn]` and
`_diag_next_connection_attempt[sn]`.  Timestamps are seconds as `Nat`. -/

structure DevState where
  enabled : Bool
  rapidRetryCount : Nat
  connectionAttempts : Nat
  reconnectCounter : Nat
  backoffStart : Option Nat
  diagNext : Option Nat
deriving DecidableEq

/-- Defaults of the source dictionaries: `is_grill_enabled` falls back to
`False`, the counter dicts to `0`, the timestamp dicts to `None`. -/
def DevState.init : DevState :=
  { enabled := false, rapidRetryCount := 0, connectionAttempts := 0,
    reconnectCounter := 0, backoffStart := none, diagNext := none }

/-- Observable outcome of one connection attempt of the outer `while`
iteration:

* `connectError` — `open_connection`/`drain` raised `ConnectionError` or
  `OSError`;
* `timeoutNoData` — `wait_for` hit the 90 s heartbeat timeout;
* `emptyFirstPacket` — the first read returned zero bytes
  (`if not first_packet`), leaving `connection_succeeded` `False`;
* `cancelled` — `asyncio.CancelledError`, the loop breaks;
* `successThenClosed` — handshake succeeded (resets applied), then a later
  read returned zero bytes, setting `connection_succeeded = False`;
* `successThenIOError` — handshake succeeded, then a read raised; since
  `connection_succeeded` is still `True` the loop continues immediately;
* `successThenDisabled` — handshake succeeded, then the inner `while`
  observed the grill disabled (the flag change itself is the external
  `enable_grill` call's doing). -/
inductive AttemptResult
  | connectError
  | timeoutNoData
  | emptyFirstPacket
  | cancelled
  | successThenClosed
  | successThenIOError
  | successThenDisabled
deriving DecidableEq

def isHandshakeFailure : AttemptResult → Bool
  | .connectError => true
  | .timeoutNoData => true
  | .emptyFirstPacket => true
  | _ => false

/-- What the loop does after one iteration: sleep for `d` seconds and
iterate again, iterate again immediately (`continue` with no sleep), or
terminate (`break` / while-condition false). -/
inductive LoopAction
  | sleep (d : Nat)
  | retryNow
  | stopped
deriving DecidableEq

/-- The resets performed on a successful handshake (first non-empty
packet): `rapid_retry_count = 0`, `tcp_reconnect_counter[sn] = 0`, and both
`_backoff_start_times` and `_diag_next_connection_attempt` popped. -/
def handshakeReset (s : DevState) : DevState :=
  { s with rapidRetryCount := 0, reconnectCounter := 0,
           backoffStart := none, diagNext := none }

/-- Failure handling at the bottom of the outer `while` (api.py lines
204-229): bump `rapid_retry_count`; if still under `RAPID_RETRY_ATTEMPTS`,
sleep 2 s; otherwise enter/stay in the backoff tier: record the epoch start
and zero the reconnect counter on first entry, force-disable once the
epoch exceeds 30 minutes, else sleep `min(300, 30 * 2 ^ attempt)` and
increment the reconnect counter. -/
def failHandle (s : DevState) (now : Nat) : DevState × LoopAction :=
  let s1 := { s with rapidRetryCount := s.rapidRetryCount + 1 }
  if s1.rapidRetryCount < RAPID_RETRY_ATTEMPTS then
    (s1, .sleep RAPID_RETRY_DELAY_SECONDS)
  else
    let s2 :=
      match s1.backoffStart with
      | none => { s1 with backoffStart := some now, reconnectCounter := 0 }
      | some _ => s1
    let start := s2.backoffStart.getD now
    if OVERALL_TIMEOUT_MINUTES * 60 < now - start then
      ({ s2 with diagNext := none, enabled := false }, .stopped)
    else
      let attempt := s2.reconnectCounter
      let delay := min MAX_RETRY_DELAY_SECONDS (INITIAL_RETRY_DELAY_SECONDS * 2 ^ attempt)
      ({ s2 with diagNext := some (now + delay), reconnectCounter := attempt + 1 },
       .sleep delay)

/-- One iteration of the outer `while` of `_tcp_listener_loop`, given the
gating-signal value `home`, the attempt outcome `r` and the current time
`now`.  A disabled grill fails the `while` condition; a not-home tracker
leads to `enable_grill(sn, False)` and `break`; otherwise the connection
attempt counter is bumped and the outcome handled as in the source. -/
def loopIter (s : DevState) (home : Bool) (r : AttemptResult) (now : Nat) :
    DevState × LoopAction :=
  if s.enabled = false then (s, .stopped)
  else if home = false then ({ s with enabled := false }, .stopped)
  else
    let s1 := { s with connectionAttempts := s.connectionAttempts + 1 }
    match r with
    | .cancelled => (s1, .stopped)
    | .successThenDisabled => (handshakeReset s1, .stopped)
    | .successThenIOError => (handshakeReset s1, .retryNow)
    | .successThenClosed => failHandle (handshakeReset s1) now
    | .connectError => failHandle s1 now
    | .timeoutNoData => failHandle s1 now
    | .emptyFirstPacket => failHandle s1 now

/-- The per-device state effect of `enable_grill(sn, enable)`: the flag is
written; on enable the reconnect counter is zeroed and both timestamp
entries popped; on disable nothing else in the per-device state changes. -/
def enableGrillDev (s : DevState) (enable : Bool) : DevState :=
  if enable then
    { s with enabled := true, reconnectCounter := 0,
             backoffStart := none, diagNext := none }
  else { s with enabled := false }

/-! ### A run of consecutive connection failures

`runFailuresAux n s now` performs `n` iterations with outcome
`connectError`, tracker home, attempts taking no time, and the clock
advanced by each sleep; it returns the final state, the final clock and the
list of slept delays (stopping early if the loop terminates). -/

def runFailuresAux : Nat → DevState → Nat → DevState × Nat × List Nat
  | 0, s, now => (s, now, [])
  | n + 1, s, now =>
      match loopIter s true .connectError now with
      | (s1, .sleep d) =>
          let r := runFailuresAux n s1 (now + d)
          (r.1, r.2.1, d :: r.2.2)
      | (s1, _) => (s1, now, [])

/-- State after `n` consecutive connection failures of a freshly enabled
grill. -/
def stateAfterFailures (n : Nat) : DevState :=
  (runFailuresAux n { DevState.init with enabled := true } 0).1

/-- Delays slept after each of `n` consecutive connection failures of a
freshly enabled grill. -/
def delaysAfterFailures (n : Nat) : List Nat :=
  (runFailuresAux n { DevState.init with enabled := true } 0).2.2

/-! ## Connection manager (`OttoWildeG32ApiClient` control surface)

Asyncio tasks are explicit records carrying the serial they listen for and
a `done` flag; `_tcp_connections` is the association `serial → task id`.
Association lists are extended at the front, so `List.lookup` sees the
latest binding, matching dict assignment; `_synced_global_counters` is
represented by one flag per global counter. -/

structure TaskRec where
  id : Nat
  sn : String
  done : Bool
deriving DecidableEq

structure MgrState where
  devs : List (String × DevState)
  apiLoginCalls : Nat
  apiGrillsCalls : Nat
  syncedLogin : Bool
  syncedGrills : Bool
  grills : List String
  conns : List (String × Nat)
  tasks : List TaskRec
  nextId : Nat
deriving DecidableEq

def mgrInit : MgrState :=
  { devs := [], apiLoginCalls := 0, apiGrillsCalls := 0,
    syncedLogin := false, syncedGrills := false,
    grills := [], conns := [], tasks := [], nextId := 0 }

/-- Per-device state with the source's dictionary defaults. -/
def getDev (s : MgrState) (sn : String) : DevState :=
  (s.devs.lookup sn).getD DevState.init

def setDev (s : MgrState) (sn : String) (d : DevState) : MgrState :=
  { s with devs := (sn, d) :: s.devs }

/-- `self._tcp_connections[sn]["task"].done()` (missing tasks never occur
for ids held in `conns`; `true` is a safe default). -/
def taskDoneFlag (s : MgrState) (tid : Nat) : Bool :=
  ((s.tasks.find? (fun t => t.id = tid)).map TaskRec.done).getD true

/-- Task creation inside `_start_listener_for_grill`: only a discovered
grill gets a task; the new task's loop-local `rapid_retry_count` starts at
zero. -/
def spawnTask (s : MgrState) (sn : String) : MgrState :=
  if sn ∈ s.grills then
    setDev
      { s with tasks := { id := s.nextId, sn := sn, done := false } :: s.tasks,
               conns := (sn, s.nextId) :: s.conns,
               nextId := s.nextId + 1 }
      sn { getDev s sn with rapidRetryCount := 0 }
  else s

/-- `_start_listener_for_grill`: return early when a not-yet-done task is
already registered for the serial. -/
def startListener (s : MgrState) (sn : String) : MgrState :=
  match s.conns.lookup sn with
  | some tid => if taskDoneFlag s tid = false then s else spawnTask s sn
  | none => spawnTask s sn

def markDone (tasks : List TaskRec) (tid : Nat) : List TaskRec :=
  tasks.map (fun t => if t.id = tid then { t with done := true } else t)

/-- `_stop_listener_for_grill`: pop the connection entry; if its task is
not yet done, cancel and await it (it is then terminated). -/
def stopListener (s : MgrState) (sn : String) : MgrState :=
  match s.conns.lookup sn with
  | some tid =>
      if taskDoneFlag s tid = false then
        { s with conns := s.conns.filter (fun p => p.1 ≠ sn),
                 tasks := markDone s.tasks tid }
      else
        { s with conns := s.conns.filter (fun p => p.1 ≠ sn) }
  | none => s

/-- `enable_grill(sn, enable)`. -/
def enableGrill (s : MgrState) (sn : String) (enable : Bool) : MgrState :=
  if enable then startListener (setDev s sn (enableGrillDev (getDev s sn) enable)) sn
  else stopListener (setDev s sn (enableGrillDev (getDev s sn) enable)) sn

/-- `connect_if_needed(sn)`: no-op when the grill is already enabled. -/
def connectIfNeeded (s : MgrState) (sn : String) : MgrState :=
  if (getDev s sn).enabled = true then s else enableGrill s sn true

/-- `async_start_listeners`: start a listener for every enabled discovered
grill. -/
def startAllListeners (s : MgrState) : MgrState :=
  s.grills.foldl
    (fun acc sn => if (getDev acc sn).enabled = true then startListener acc sn else acc) s

/-- One iteration of a device's listener task at manager level.  The loop
runs only while the grill is enabled; when the iteration itself disables
the grill (tracker not home, or backoff give-up) the source calls
`enable_grill(sn, False)` from within the task, whose remaining effect
beyond the flag write is `_stop_listener_for_grill`. -/
def iterDev (s : MgrState) (sn : String) (home : Bool) (r : AttemptResult) (now : Nat) :
    MgrState :=
  if (getDev s sn).enabled = false then s
  else if (loopIter (getDev s sn) home r now).1.enabled = false then
    stopListener (setDev s sn (loopIter (getDev s sn) home r now).1) sn
  else setDev s sn (loopIter (getDev s sn) home r now).1

/-- Manager operations:

* `login` — `async_login` (counter effect);
* `discover serials` — a successful `async_get_grill_details` fetch:
  counter bump, grill list replaced, per-device entries `setdefault`-ed
  (enabled defaults to `True`, counters to `0`);
* `grillsCallFail` — a fetch attempt that still bumped the call counter;
* `enable` / `connectNeeded` — the public control calls;
* `iter` — one iteration of a device's listener task;
* `taskEnds` — a task coroutine returning (its `done()` becomes true);
* `syncLogin`/`syncGrills`/`syncConnAttempts`/`syncReconnect` —
  `sync_counter` for the two global and the two per-device counters,
  restored values being counts (`Nat`);
* `startAll` — `async_start_listeners`. -/
inductive MgrOp
  | login
  | grillsCallFail
  | discover (serials : List String)
  | enable (sn : String) (enable : Bool)
  | connectNeeded (sn : String)
  | iter (sn : String) (home : Bool) (r : AttemptResult) (now : Nat)
  | taskEnds (tid : Nat)
  | syncLogin (v : Nat)
  | syncGrills (v : Nat)
  | syncConnAttempts (sn : String) (v : Nat)
  | syncReconnect (sn : String) (v : Nat)
  | startAll
deriving DecidableEq

def mgrStep (s : MgrState) : MgrOp → MgrState
  | .login => { s with apiLoginCalls := s.apiLoginCalls + 1 }
  | .grillsCallFail => { s with apiGrillsCalls := s.apiGrillsCalls + 1 }
  | .discover serials =>
      serials.foldl
        (fun acc sn =>
          if acc.devs.lookup sn = none then
            setDev acc sn { DevState.init with enabled := true }
          else acc)
        { s with apiGrillsCalls := s.apiGrillsCalls + 1, grills := serials }
  | .enable sn b => enableGrill s sn b
  | .connectNeeded sn => connectIfNeeded s sn
  | .iter sn home r now => iterDev s sn home r now
  | .taskEnds tid => { s with tasks := markDone s.tasks tid }
  | .syncLogin v =>
      if s.syncedLogin then s
      else { s with apiLoginCalls := v + s.apiLoginCalls, syncedLogin := true }
  | .syncGrills v =>
      if s.syncedGrills then s
      else { s with apiGrillsCalls := v + s.apiGrillsCalls, syncedGrills := true }
  | .syncConnAttempts sn v =>
      setDev s sn
        { getDev s sn with connectionAttempts := v + (getDev s sn).connectionAttempts }
  | .syncReconnect sn v =>
      setDev s sn
        { getDev s sn with reconnectCounter := v + (getDev s sn).reconnectCounter }
  | .startAll => startAllListeners s

def mgrRun (ops : List MgrOp) : MgrState :=
  ops.foldl mgrStep mgrInit

/-- Tasks of a device that have not terminated. -/
def liveTasks (s : MgrState) (sn : String) : List TaskRec :=
  s.tasks.filter (fun t => t.sn = sn ∧ t.done = false)

/-- Manager invariant: task ids are below `nextId` and pairwise distinct,
and every live task is the one its device's connection entry points to. -/
def MgrInv (s : MgrState) : Prop :=
  (∀ t ∈ s.tasks, t.id < s.nextId) ∧
  List.Pairwise (fun a b => a.id ≠ b.id) s.tasks ∧
  (∀ t ∈ s.tasks, t.done = false → s.conns.lookup t.sn = some t.id)

/-! ## Remaining concrete-scenario definitions -/

/-- The sentinel patterns as byte pairs:
`0x9600, 0xFFFF, 0x0000, 0xFFEF, 0xFEFF`. -/
def sentinelBytes : List (Nat × Nat) :=
  [(0x96, 0x00), (0xff, 0xff), (0x00, 0x00), (0xff, 0xef), (0xfe, 0xff)]

/-- The pre-recorded stream of the end-to-end decode scenario: one record
of `PACKET_SIZE` bytes starting with the packet header, whose zone-1 field
(bytes 6-7, hex characters 12-16) is `0x01 0x40`, all other payload bytes
zero. -/
def c7Stream : List Nat :=
  [0xa3, 0x3a, 0, 0, 0, 0, 0x01, 0x40] ++ List.replicate 43 0

/-- Operation sequence driving one grill into the backoff tier: discovery
followed by five consecutive connection failures (attempts at the times the
sleeps dictate). -/
def backoffOps : List MgrOp :=
  [.discover ["g"],
   .iter "g" true .connectError 0,
   .iter "g" true .connectError 2,
   .iter "g" true .connectError 4,
   .iter "g" true .connectError 6,
   .iter "g" true .connectError 8]

/-! # Theorems -/

/-- The value computed by `parse_temp_value` is exactly the source's
`temp_whole * 10 + temp_decimal / 10.0`. -/
theorem tempValue_eq (w d : ℕ) :
    (mkRat (100 * w + d) 10 : ℚ) = (w : ℚ) * 10 + (d : ℚ) / 10 := by
  rw [Rat.mkRat_eq_div]; push_cast; ring

/-- The only failure mode of the `try:` body of `_parse_binary_data` is a
`ValueError` from one of the `int(..., 16)` calls. -/
theorem intHex_ok_or_valueError (s : List Char) :
    (∃ n, intHex s = Except.ok n) ∨ intHex s = Except.error PyErr.valueError := by
  unfold intHex
  cases parseHexStr s <;> simp

/-- C8: for every input byte buffer, the packet decoder returns a record or
`None`; every exception the body can raise is a `ValueError`, which the
`except` clause catches, so no error ever propagates. -/
theorem c8_decoder_total (data : List Nat) :
    ∃ r, parse_binary_data data = Except.ok r := by
  unfold parse_binary_data parse_binary_body
  rcases intHex_ok_or_valueError (pySlice (bytesHex data) 44 48) with ⟨n, hn⟩ | hn <;>
    rcases intHex_ok_or_valueError (pySlice (bytesHex data) 62 64) with ⟨m, hm⟩ | hm <;>
      simp [hn, hm, Bind.bind, Except.bind]

/-- C7 counterexample: feeding the stream whose zone-1 field bytes are
`0x01 0x40` produces exactly one dispatch, but its zone-1 value is
`164/10 = 16.4` °C (`1 * 10 + 64 / 10`), not the claimed `14.0`. -/
theorem c7_counterexample :
    (streamRun c7Stream []).map (fun r => r.zone_1) = [some (mkRat 164 10)]
      ∧ ¬ (mkRat 164 10 : ℚ) = 14 := by
  exact ⟨by decide, by decide⟩

/-- C7 (amended): the stream `header + record with zone-1 bytes 0x01 0x40`
yields exactly one telemetry dispatch, and its zone-1 value is 16.4 °C. -/
theorem c7_single_dispatch_val :
    (streamRun c7Stream []).length = 1
  ∧ (streamRun c7Stream []).map (fun r => r.zone_1) = [some ((82 : ℚ) / 5)] := by
  constructor
  · decide
  · have h : (streamRun c7Stream []).map (fun r => r.zone_1) = [some (mkRat 164 10)] := by
      decide
    rw [h]
    norm_num [Rat.mkRat_eq_div]

/-- C1 counterexample: after 7 consecutive connection failures the slept
delays are `[2, 2, 2, 2, 30, 60, 120]` — the 5th delay is already the
30-second backoff delay and the 6th and 7th are 60 s and 120 s, not the
claimed `[2, 2, 2, 2, 2, 30, 60]`. -/
theorem c1_counterexample :
    delaysAfterFailures 7 = [2, 2, 2, 2, 30, 60, 120]
      ∧ ¬ delaysAfterFailures 7 = [2, 2, 2, 2, 2, 30, 60] := by
  exact ⟨by decide, by decide⟩

/-- C1 (amended): in a run of consecutive failures (attempts taking no
time) the delay after failure `k+1` is 2 s for `k < 4` and
`min(300, 30 * 2 ^ (k - 4))` from the 5th failure on, for as long as the
30-minute give-up has not fired (the first 13 failures); in particular
after 7 consecutive failures the 6th and 7th delays are 60 s and 120 s and
the device is still enabled. -/
theorem c1_retry_delays (k : Nat) (hk : k < 13) :
    ((delaysAfterFailures 13).getD k 0 =
      if k < RAPID_RETRY_ATTEMPTS - 1 then RAPID_RETRY_DELAY_SECONDS
      else min MAX_RETRY_DELAY_SECONDS
             (INITIAL_RETRY_DELAY_SECONDS * 2 ^ (k - (RAPID_RETRY_ATTEMPTS - 1))))
  ∧ (delaysAfterFailures 7).getD 5 0 = 60
  ∧ (delaysAfterFailures 7).getD 6 0 = 120
  ∧ (stateAfterFailures 7).enabled = true := by
  revert hk
  revert k
  decide

theorem c1_retry_delays_witness :
    (delaysAfterFailures 13).getD 4 0 = 30 := by
  have h := (c1_retry_delays 4 (by decide)).1
  simpa using h

/-- C5 counterexample: after 5 consecutive failures the backoff tier has
been entered (epoch timestamp set, reconnect counter reset and bumped to
1), yet the rapid-retry count is 5, not 0 — entering backoff does not reset
it. -/
theorem c5_counterexample :
    (stateAfterFailures 5).backoffStart = some 8
  ∧ (stateAfterFailures 5).reconnectCounter = 1
  ∧ ¬ (stateAfterFailures 5).rapidRetryCount = 0 := by
  exact ⟨by decide, by decide, by decide⟩

/-! ### Temperature decoder (C3) -/

theorem hexDigitVal_hexChar : ∀ d, d < 16 → hexDigitVal (hexChar d) = some d := by decide

theorem hexChar_toLower : ∀ d, d < 16 → (hexChar d).toLower = hexChar d := by decide

theorem hexChar_inj : ∀ d, d < 16 → ∀ e, e < 16 → hexChar d = hexChar e → d = e := by decide

theorem parseHexStr_byteHex (b : Nat) (hb : b < 256) :
    parseHexStr (byteHex b) = some b := by
  have h1 : b / 16 < 16 := by omega
  have h2 : b % 16 < 16 := by omega
  simp [byteHex, parseHexStr, parseHexAux, hexDigitVal_hexChar _ h1,
    hexDigitVal_hexChar _ h2]
  omega

theorem byteHex_map_toLower (b : Nat) (hb : b < 256) :
    (byteHex b).map Char.toLower = byteHex b := by
  have h1 : b / 16 < 16 := by omega
  have h2 : b % 16 < 16 := by omega
  simp [byteHex, hexChar_toLower _ h1, hexChar_toLower _ h2]

theorem byteHex_pair_inj (b c x y : Nat) (hb : b < 256) (hc : c < 256)
    (hx : x < 256) (hy : y < 256) :
    byteHex b ++ byteHex c = byteHex x ++ byteHex y ↔ (b = x ∧ c = y) := by
  constructor
  · intro h
    simp only [byteHex, List.cons_append, List.nil_append, List.cons.injEq,
      and_true] at h
    obtain ⟨e1, e2, e3, e4⟩ := h
    have q1 := hexChar_inj _ (by omega) _ (by omega) e1
    have r1 := hexChar_inj _ (by omega) _ (by omega) e2
    have q2 := hexChar_inj _ (by omega) _ (by omega) e3
    have r2 := hexChar_inj _ (by omega) _ (by omega) e4
    omega
  · rintro ⟨hbx, hcy⟩
    rw [hbx, hcy]

theorem sentinel_mem_iff (b c : Nat) (hb : b < 256) (hc : c < 256) :
    (byteHex b ++ byteHex c ∈ sentinelStrs) ↔ (b, c) ∈ sentinelBytes := by
  have e1 : (['9', '6', '0', '0'] : List Char) = byteHex 0x96 ++ byteHex 0x00 := rfl
  have e2 : (['f', 'f', 'f', 'f'] : List Char) = byteHex 0xff ++ byteHex 0xff := rfl
  have e3 : (['0', '0', '0', '0'] : List Char) = byteHex 0x00 ++ byteHex 0x00 := rfl
  have e4 : (['f', 'f', 'e', 'f'] : List Char) = byteHex 0xff ++ byteHex 0xef := rfl
  have e5 : (['f', 'e', 'f', 'f'] : List Char) = byteHex 0xfe ++ byteHex 0xff := rfl
  have i1 := byteHex_pair_inj b c 0x96 0x00 hb hc (by norm_num) (by norm_num)
  have i2 := byteHex_pair_inj b c 0xff 0xff hb hc (by norm_num) (by norm_num)
  have i3 := byteHex_pair_inj b c 0x00 0x00 hb hc (by norm_num) (by norm_num)
  have i4 := byteHex_pair_inj b c 0xff 0xef hb hc (by norm_num) (by norm_num)
  have i5 := byteHex_pair_inj b c 0xfe 0xff hb hc (by norm_num) (by norm_num)
  simp only [sentinelStrs, sentinelBytes, List.mem_cons, List.not_mem_nil, or_false,
    e1, e2, e3, e4, e5, Prod.mk.injEq, i1, i2, i3, i4, i5]

/-- C3: for a two-byte temperature field (hex image of bytes `b1 b2`), the
decoder returns no reading exactly when the raw pattern is one of the
sentinels or the computed value `b1 * 10 + b2 / 10` lies outside
`[-50, 600]` °C, and otherwise returns exactly that computed value. -/
theorem c3_temp_decode (b1 b2 : Nat) (h1 : b1 < 256) (h2 : b2 < 256) :
    (parse_temp_value (byteHex b1 ++ byteHex b2) = none
       ↔ ((b1, b2) ∈ sentinelBytes
            ∨ (b1 : ℚ) * 10 + (b2 : ℚ) / 10 < -50
            ∨ 600 < (b1 : ℚ) * 10 + (b2 : ℚ) / 10))
  ∧ ((b1, b2) ∉ sentinelBytes →
      ¬ ((b1 : ℚ) * 10 + (b2 : ℚ) / 10 < -50 ∨ 600 < (b1 : ℚ) * 10 + (b2 : ℚ) / 10) →
      parse_temp_value (byteHex b1 ++ byteHex b2)
        = some ((b1 : ℚ) * 10 + (b2 : ℚ) / 10)) := by
  have hlen : (byteHex b1 ++ byteHex b2).length = 4 := by
    simp [byteHex]
  have hmap : (byteHex b1 ++ byteHex b2).map Char.toLower = byteHex b1 ++ byteHex b2 := by
    rw [List.map_append, byteHex_map_toLower b1 h1, byteHex_map_toLower b2 h2]
  have htake : (byteHex b1 ++ byteHex b2).take 2 = byteHex b1 := by
    simp [byteHex]
  have hdrop : (byteHex b1 ++ byteHex b2).drop 2 = byteHex b2 := by
    simp [byteHex]
  have hval : (mkRat (100 * b1 + b2) 10 : ℚ) = (b1 : ℚ) * 10 + (b2 : ℚ) / 10 := by
    rw [Rat.mkRat_eq_div]; push_cast; ring
  unfold parse_temp_value
  rw [hlen, hmap, htake, hdrop, parseHexStr_byteHex b1 h1, parseHexStr_byteHex b2 h2]
  simp only [ne_eq, not_true_eq_false, if_false, reduceCtorEq]
  by_cases hs : byteHex b1 ++ byteHex b2 ∈ sentinelStrs
  · have hs2 : (b1, b2) ∈ sentinelBytes := (sentinel_mem_iff b1 b2 h1 h2).mp hs
    simp [hs, hs2]
  · have hs2 : (b1, b2) ∉ sentinelBytes := fun hmem =>
      hs ((sentinel_mem_iff b1 b2 h1 h2).mpr hmem)
    rw [if_neg hs]
    by_cases hrange :
        (b1 : ℚ) * 10 + (b2 : ℚ) / 10 < -50 ∨ 600 < (b1 : ℚ) * 10 + (b2 : ℚ) / 10
    · rw [if_pos (by rw [hval]; exact hrange)]
      simp [hs2, hrange]
    · rw [if_neg (by rw [hval]; exact hrange)]
      simp [hs2, hrange, hval]

theorem c3_temp_decode_witness :
    parse_temp_value (byteHex 1 ++ byteHex 64) = some ((1 : ℚ) * 10 + (64 : ℚ) / 10) := by
  have h := (c3_temp_decode 1 64 (by norm_num) (by norm_num)).2 (by decide) (by norm_num)
  simpa using h

/-! ### Listener-loop behaviour (C4, C5, C10) -/

/-- Failure handling always records the failure in the rapid counter,
whatever tier applies. -/
theorem failHandle_rapid (s : DevState) (now : Nat) :
    (failHandle s now).1.rapidRetryCount = s.rapidRetryCount + 1 := by
  rcases hb : s.backoffStart with - | t <;> simp [failHandle, hb] <;>
    split_ifs <;> rfl

/-- C5 (amended): a successful handshake unconditionally clears the
rapid-retry count, the backoff attempt count and the backoff-epoch
timestamp — from any enabled state, in particular one whose epoch
timestamp is set; entering the exponential-backoff tier (epoch not yet
recorded, rapid tier exhausted) records the epoch and resets the backoff
attempt count (the first backoff delay is 30 s and the counter afterwards
is 1 regardless of its previous value), but leaves the rapid-retry count
at its incremented value rather than resetting it. -/
theorem c5_reset_behaviour (s : DevState) (now : Nat)
    (henabled : s.enabled = true) :
    loopIter s true .successThenIOError now =
      ({ s with connectionAttempts := s.connectionAttempts + 1,
                rapidRetryCount := 0, reconnectCounter := 0,
                backoffStart := none, diagNext := none }, .retryNow)
  ∧ (s.backoffStart = none → RAPID_RETRY_ATTEMPTS ≤ s.rapidRetryCount + 1 →
      loopIter s true .connectError now =
        ({ s with connectionAttempts := s.connectionAttempts + 1,
                  rapidRetryCount := s.rapidRetryCount + 1,
                  backoffStart := some now, reconnectCounter := 1,
                  diagNext := some (now + INITIAL_RETRY_DELAY_SECONDS) },
         .sleep INITIAL_RETRY_DELAY_SECONDS)) := by
  constructor
  · simp [loopIter, handshakeReset, henabled]
  · intro hstart hrapid
    have hlt : ¬ (s.rapidRetryCount + 1 < RAPID_RETRY_ATTEMPTS) := by omega
    simp [loopIter, failHandle, henabled, hstart, hlt,
      OVERALL_TIMEOUT_MINUTES, INITIAL_RETRY_DELAY_SECONDS, MAX_RETRY_DELAY_SECONDS]

theorem c5_reset_behaviour_witness :
    loopIter { enabled := true, rapidRetryCount := 7, connectionAttempts := 3,
               reconnectCounter := 4, backoffStart := some 5, diagNext := some 6 }
        true .successThenIOError 100
      = ({ enabled := true, rapidRetryCount := 0, connectionAttempts := 4,
           reconnectCounter := 0, backoffStart := none, diagNext := none },
         .retryNow)
  ∧ loopIter { DevState.init with enabled := true, rapidRetryCount := 4,
                                  reconnectCounter := 7 } true .connectError 100
      = ({ enabled := true, rapidRetryCount := 5,
           connectionAttempts := 1, reconnectCounter := 1,
           backoffStart := some 100, diagNext := some 130 },
         .sleep 30) := by
  constructor
  · have h := (c5_reset_behaviour
      { enabled := true, rapidRetryCount := 7, connectionAttempts := 3,
        reconnectCounter := 4, backoffStart := some 5, diagNext := some 6 }
      100 rfl).1
    simpa using h
  · have h := (c5_reset_behaviour
      { DevState.init with enabled := true, rapidRetryCount := 4, reconnectCounter := 7 }
      100 rfl).2 rfl (by decide)
    simpa using h

/-- C4: once the backoff epoch is exceeded at a failure past the rapid
tier, the iteration force-disables the device and stops; a disabled device
performs no iteration at all (no connection attempt, no state change); and
an external `enable_grill(sn, True)` makes it enabled again. -/
theorem c4_giveup_disables (s : DevState) (r : AttemptResult) (t0 now : Nat)
    (henabled : s.enabled = true) (hr : isHandshakeFailure r = true)
    (hrapid : RAPID_RETRY_ATTEMPTS ≤ s.rapidRetryCount + 1)
    (hstart : s.backoffStart = some t0)
    (helapsed : t0 + OVERALL_TIMEOUT_MINUTES * 60 < now) :
    loopIter s true r now =
      ({ s with connectionAttempts := s.connectionAttempts + 1,
                rapidRetryCount := s.rapidRetryCount + 1,
                diagNext := none, enabled := false }, .stopped)
  ∧ (∀ s2 : DevState, s2.enabled = false →
      ∀ (home : Bool) (r2 : AttemptResult) (now2 : Nat),
        loopIter s2 home r2 now2 = (s2, .stopped))
  ∧ (enableGrillDev { s with enabled := false } true).enabled = true := by
  refine ⟨?_, ?_, by simp [enableGrillDev]⟩
  · have hlt : ¬ (s.rapidRetryCount + 1 < RAPID_RETRY_ATTEMPTS) := by omega
    have hgt : OVERALL_TIMEOUT_MINUTES * 60 < now - t0 := by
      simp only [OVERALL_TIMEOUT_MINUTES] at helapsed ⊢
      omega
    cases r <;> simp only [isHandshakeFailure, Bool.false_eq_true] at hr <;>
      simp [loopIter, failHandle, henabled, hstart, hlt, hgt]
  · intro s2 h2 home r2 now2
    simp [loopIter, h2]

theorem c4_giveup_disables_witness :
    loopIter { enabled := true, rapidRetryCount := 6, connectionAttempts := 10,
               reconnectCounter := 3, backoffStart := some 0, diagNext := none } true
        .connectError 2000
      = ({ enabled := false, rapidRetryCount := 7, connectionAttempts := 11,
           reconnectCounter := 3, backoffStart := some 0, diagNext := none },
         .stopped) := by
  have h := (c4_giveup_disables
    { enabled := true, rapidRetryCount := 6, connectionAttempts := 10,
      reconnectCounter := 3, backoffStart := some 0, diagNext := none }
    .connectError 0 2000 rfl rfl (by decide) rfl (by decide)).1
  simpa using h

/-- C10: an attempt whose first read returns zero bytes within the
heartbeat window is handled exactly like a heartbeat timeout or a
connection error — in particular the rapid-retry count increments. -/
theorem c10_empty_first_read (s : DevState) (now : Nat) (henabled : s.enabled = true) :
    loopIter s true .emptyFirstPacket now = loopIter s true .timeoutNoData now
  ∧ loopIter s true .emptyFirstPacket now = loopIter s true .connectError now
  ∧ (loopIter s true .emptyFirstPacket now).1.rapidRetryCount
      = s.rapidRetryCount + 1 := by
  refine ⟨?_, ?_, ?_⟩
  · simp [loopIter, henabled]
  · simp [loopIter, henabled]
  · simp [loopIter, henabled, failHandle_rapid]

/-! ### Manager task bookkeeping (C2) -/

theorem lookup_cons_self {β : Type} {v : β} (l : List (String × β)) (x : String) :
    List.lookup x ((x, v) :: l) = some v := by
  simp [List.lookup]

theorem lookup_cons_ne {β : Type} {k : String} {v : β} (l : List (String × β))
    {x : String} (h : ¬ x = k) :
    List.lookup x ((k, v) :: l) = List.lookup x l := by
  have hb : (x == k) = false := beq_eq_false_iff_ne.mpr h
  simp [List.lookup, hb]

theorem lookup_filterKey (l : List (String × Nat)) (sn x : String) :
    (l.filter (fun p => p.1 ≠ sn)).lookup x
      = if x = sn then none else l.lookup x := by
  induction l with
  | nil => simp
  | cons p l ih =>
      obtain ⟨k, v⟩ := p
      by_cases hk : k = sn
      · subst hk
        have hpk : (decide ((k, v).1 ≠ k)) = false := by simp
        rw [List.filter_cons, hpk]
        simp only [Bool.false_eq_true, if_false]
        rw [ih]
        by_cases hx : x = k
        · rw [if_pos hx, if_pos hx]
        · rw [if_neg hx, if_neg hx, lookup_cons_ne l hx]
      · have hpk : (decide ((k, v).1 ≠ sn)) = true := by simp [hk]
        rw [List.filter_cons, hpk]
        simp only [if_true]
        by_cases hx : x = k
        · subst hx
          rw [lookup_cons_self, if_neg hk, lookup_cons_self]
        · rw [lookup_cons_ne _ hx, lookup_cons_ne _ hx, ih]

theorem unique_id_eq {l : List TaskRec}
    (hp : List.Pairwise (fun a b => a.id ≠ b.id) l)
    {t u : TaskRec} (ht : t ∈ l) (hu : u ∈ l) (hid : t.id = u.id) : t = u := by
  induction l with
  | nil => cases ht
  | cons a l ih =>
      obtain ⟨ha, hl⟩ := List.pairwise_cons.mp hp
      rcases List.mem_cons.mp ht with rfl | ht2
      · rcases List.mem_cons.mp hu with rfl | hu2
        · rfl
        · exact absurd hid (ha u hu2)
      · rcases List.mem_cons.mp hu with rfl | hu2
        · exact absurd hid.symm (ha t ht2)
        · exact ih hl ht2 hu2

theorem taskDoneFlag_of_live (s : MgrState)
    (hpair : List.Pairwise (fun a b => a.id ≠ b.id) s.tasks)
    {t : TaskRec} (ht : t ∈ s.tasks) (hd : t.done = false) :
    taskDoneFlag s t.id = false := by
  unfold taskDoneFlag
  cases hf : s.tasks.find? (fun u => u.id = t.id) with
  | none =>
      exfalso
      have hnone := List.find?_eq_none.mp hf t ht
      simp at hnone
  | some u =>
      have hu1 : u ∈ s.tasks := List.mem_of_find?_eq_some hf
      have hu2 : u.id = t.id := by simpa using List.find?_some hf
      have heq : u = t := unique_id_eq hpair hu1 ht hu2
      simp [heq, hd]

theorem MgrInv_spawnTask (s : MgrState) (sn : String) (hinv : MgrInv s)
    (hnolive : ∀ t ∈ s.tasks, t.sn = sn → t.done = true) :
    MgrInv (spawnTask s sn) := by
  obtain ⟨h1, h2, h3⟩ := hinv
  unfold spawnTask
  split
  · refine ⟨?_, ?_, ?_⟩
    · intro t ht
      simp only [setDev] at ht ⊢
      rcases List.mem_cons.mp ht with rfl | ht2
      · simp
      · exact Nat.lt_succ_of_lt (h1 t ht2)
    · simp only [setDev]
      refine List.pairwise_cons.mpr ⟨?_, h2⟩
      intro u hu
      have := h1 u hu
      simp
      omega
    · intro t ht hd
      simp only [setDev] at ht ⊢
      rcases List.mem_cons.mp ht with rfl | ht2
      · exact lookup_cons_self s.conns sn
      · have hne : ¬ t.sn = sn := fun he => by
          have := hnolive t ht2 he
          rw [this] at hd
          cases hd
        rw [lookup_cons_ne _ hne]
        exact h3 t ht2 hd
  · exact ⟨h1, h2, h3⟩

theorem false_of_ne_false {b : Bool} (h : ¬ b = false) : b = true := by
  cases b
  · exact absurd rfl h
  · rfl

theorem MgrInv_startListener (s : MgrState) (sn : String) (hinv : MgrInv s) :
    MgrInv (startListener s sn) := by
  obtain ⟨h1, h2, h3⟩ := hinv
  unfold startListener
  split
  · rename_i tid hc
    split
    · exact ⟨h1, h2, h3⟩
    · rename_i hflag
      apply MgrInv_spawnTask s sn ⟨h1, h2, h3⟩
      intro t ht hsn
      by_contra hd
      have hd2 : t.done = false := by
        cases hdone : t.done
        · rfl
        · exact absurd hdone hd
      have hlook := h3 t ht hd2
      rw [hsn, hc] at hlook
      have hid : t.id = tid := by
        injection hlook with h
        exact h.symm
      have := taskDoneFlag_of_live s h2 ht hd2
      rw [hid] at this
      exact hflag this
  · rename_i hc
    apply MgrInv_spawnTask s sn ⟨h1, h2, h3⟩
    intro t ht hsn
    by_contra hd
    have hd2 : t.done = false := by
      cases hdone : t.done
      · rfl
      · exact absurd hdone hd
    have hlook := h3 t ht hd2
    rw [hsn, hc] at hlook
    cases hlook

theorem markDone_mem {l : List TaskRec} {tid : Nat} {t : TaskRec}
    (ht : t ∈ markDone l tid) :
    ∃ u ∈ l, t = if u.id = tid then { u with done := true } else u := by
  unfold markDone at ht
  obtain ⟨u, hu, he⟩ := List.mem_map.mp ht
  exact ⟨u, hu, he.symm⟩

theorem markDone_pairwise {l : List TaskRec} (tid : Nat)
    (hp : List.Pairwise (fun a b => a.id ≠ b.id) l) :
    List.Pairwise (fun a b => a.id ≠ b.id) (markDone l tid) := by
  unfold markDone
  refine List.Pairwise.map _ ?_ hp
  intro a b hab
  split <;> split <;> simpa using hab

theorem MgrInv_stopListener (s : MgrState) (sn : String) (hinv : MgrInv s) :
    MgrInv (stopListener s sn) := by
  obtain ⟨h1, h2, h3⟩ := hinv
  unfold stopListener
  split
  · rename_i tid hc
    split
    · refine ⟨?_, ?_, ?_⟩
      · intro t ht
        obtain ⟨u, hu, he⟩ := markDone_mem ht
        have hid : t.id = u.id := by
          rw [he]
          split <;> rfl
        rw [hid]
        exact h1 u hu
      · exact markDone_pairwise tid h2
      · intro t ht hd
        obtain ⟨u, hu, he⟩ := markDone_mem ht
        by_cases hidt : u.id = tid
        · rw [he, if_pos hidt] at hd
          cases hd
        · rw [if_neg hidt] at he
          rw [he] at hd ⊢
          have hlook := h3 u hu hd
          have hne : ¬ u.sn = sn := fun he2 => by
            apply hidt
            rw [he2, hc] at hlook
            injection hlook with h
            exact h.symm
          rw [lookup_filterKey, if_neg hne]
          exact hlook
    · rename_i hflag
      refine ⟨h1, h2, ?_⟩
      intro t ht hd
      have hlook := h3 t ht hd
      have hne : ¬ t.sn = sn := fun he2 => by
        apply hflag
        rw [he2, hc] at hlook
        have hid : t.id = tid := by
          injection hlook with h
          exact h.symm
        have := taskDoneFlag_of_live s h2 ht hd
        rw [hid] at this
        exact this
      rw [lookup_filterKey, if_neg hne]
      exact hlook
  · exact ⟨h1, h2, h3⟩

theorem MgrInv_markDone (s : MgrState) (tid : Nat) (hinv : MgrInv s) :
    MgrInv { s with tasks := markDone s.tasks tid } := by
  obtain ⟨h1, h2, h3⟩ := hinv
  refine ⟨?_, ?_, ?_⟩
  · intro t ht
    obtain ⟨u, hu, he⟩ := markDone_mem ht
    have hid : t.id = u.id := by
      rw [he]
      split <;> rfl
    rw [hid]
    exact h1 u hu
  · exact markDone_pairwise tid h2
  · intro t ht hd
    obtain ⟨u, hu, he⟩ := markDone_mem ht
    by_cases hidt : u.id = tid
    · rw [he, if_pos hidt] at hd
      cases hd
    · rw [if_neg hidt] at he
      rw [he] at hd ⊢
      exact h3 u hu hd

theorem MgrInv_enableGrill (s : MgrState) (sn : String) (b : Bool) (hinv : MgrInv s) :
    MgrInv (enableGrill s sn b) := by
  unfold enableGrill
  split
  · exact MgrInv_startListener _ sn hinv
  · exact MgrInv_stopListener _ sn hinv

theorem MgrInv_iterDev (s : MgrState) (sn : String) (home : Bool)
    (r : AttemptResult) (now : Nat) (hinv : MgrInv s) :
    MgrInv (iterDev s sn home r now) := by
  unfold iterDev
  split
  · exact hinv
  · split
    · exact MgrInv_stopListener _ sn hinv
    · exact hinv

theorem MgrInv_foldl_pres {f : MgrState → String → MgrState}
    (hf : ∀ acc x, MgrInv acc → MgrInv (f acc x)) :
    ∀ (l : List String) (s : MgrState), MgrInv s → MgrInv (l.foldl f s) := by
  intro l
  induction l with
  | nil => intro s h; exact h
  | cons a l ih => intro s h; exact ih _ (hf s a h)

theorem MgrInv_step (s : MgrState) (op : MgrOp) (hinv : MgrInv s) :
    MgrInv (mgrStep s op) := by
  cases op with
  | login => exact hinv
  | grillsCallFail => exact hinv
  | discover serials =>
      refine MgrInv_foldl_pres ?_ serials _ hinv
      intro acc x h
      split
      · exact h
      · exact h
  | enable sn b => exact MgrInv_enableGrill s sn b hinv
  | connectNeeded sn =>
      show MgrInv (connectIfNeeded s sn)
      unfold connectIfNeeded
      split
      · exact hinv
      · exact MgrInv_enableGrill s sn true hinv
  | iter sn home r now => exact MgrInv_iterDev s sn home r now hinv
  | taskEnds tid => exact MgrInv_markDone s tid hinv
  | syncLogin v =>
      show MgrInv (if s.syncedLogin then s else _)
      split
      · exact hinv
      · exact hinv
  | syncGrills v =>
      show MgrInv (if s.syncedGrills then s else _)
      split
      · exact hinv
      · exact hinv
  | syncConnAttempts sn v => exact hinv
  | syncReconnect sn v => exact hinv
  | startAll =>
      refine MgrInv_foldl_pres ?_ s.grills s hinv
      intro acc x h
      split
      · exact MgrInv_startListener acc x h
      · exact h

theorem MgrInv_foldl_steps :
    ∀ (ops : List MgrOp) (s : MgrState), MgrInv s → MgrInv (ops.foldl mgrStep s) := by
  intro ops
  induction ops with
  | nil => intro s h; exact h
  | cons op ops ih => intro s h; exact ih _ (MgrInv_step s op h)

theorem MgrInv_mgrRun (ops : List MgrOp) : MgrInv (mgrRun ops) := by
  have hinit : MgrInv mgrInit := by
    refine ⟨?_, ?_, ?_⟩ <;> simp [mgrInit]
  exact MgrInv_foldl_steps ops mgrInit hinit

theorem liveTasks_length_le_one (s : MgrState) (hinv : MgrInv s) (sn : String) :
    (liveTasks s sn).length ≤ 1 := by
  obtain ⟨h1, h2, h3⟩ := hinv
  have hsub : (liveTasks s sn).Sublist s.tasks := List.filter_sublist s.tasks
  have hp : List.Pairwise (fun a b => a.id ≠ b.id) (liveTasks s sn) :=
    List.Pairwise.sublist hsub h2
  rcases hl : liveTasks s sn with - | ⟨a, - | ⟨b, rest⟩⟩
  · simp [hl]
  · simp [hl]
  · exfalso
    have ha : a ∈ liveTasks s sn := by
      rw [hl]
      exact List.mem_cons_self _ _
    have hb : b ∈ liveTasks s sn := by
      rw [hl]
      exact List.mem_cons_of_mem _ (List.mem_cons_self _ _)
    have hamem := List.mem_filter.mp ha
    have hbmem := List.mem_filter.mp hb
    have hal : a.sn = sn ∧ a.done = false := by simpa using hamem.2
    have hbl : b.sn = sn ∧ b.done = false := by simpa using hbmem.2
    have hla := h3 a hamem.1 hal.2
    have hlb := h3 b hbmem.1 hbl.2
    rw [hal.1] at hla
    rw [hbl.1] at hlb
    have hab : a.id = b.id := by
      rw [hla] at hlb
      injection hlb
    rw [hl] at hp
    exact (List.pairwise_cons.mp hp).1 b (List.mem_cons_self _ _) hab

theorem startListener_noop_of_live (u : MgrState) (sn : String) (tid : Nat)
    (hc : u.conns.lookup sn = some tid) (hf : taskDoneFlag u tid = false) :
    startListener u sn = u := by
  unfold startListener
  rw [hc]
  simp [hf]

theorem spawnTask_lookup (u : MgrState) (sn : String) (hg : sn ∈ u.grills) :
    (spawnTask u sn).conns.lookup sn = some u.nextId := by
  unfold spawnTask
  rw [if_pos hg]
  exact lookup_cons_self _ _

theorem spawnTask_doneFlag (u : MgrState) (sn : String) (hg : sn ∈ u.grills) :
    taskDoneFlag (spawnTask u sn) u.nextId = false := by
  unfold taskDoneFlag spawnTask
  rw [if_pos hg]
  simp [setDev, List.find?]

theorem spawnTask_noop_of_not_grill (u : MgrState) (sn : String) (hg : sn ∉ u.grills) :
    spawnTask u sn = u := by
  unfold spawnTask
  rw [if_neg hg]

theorem startListener_tasks_of_not_grill (u : MgrState) (sn : String)
    (hg : sn ∉ u.grills) :
    (startListener u sn).tasks = u.tasks := by
  unfold startListener
  split
  · split
    · rfl
    · rw [spawnTask_noop_of_not_grill u sn hg]
  · rw [spawnTask_noop_of_not_grill u sn hg]

/-- After `enable_grill(sn, True)` the device either has a not-yet-done
task registered, or is not a discovered grill at all. -/
theorem after_enable_shape (s : MgrState) (sn : String) :
    (∃ tid, (mgrStep s (.enable sn true)).conns.lookup sn = some tid
        ∧ taskDoneFlag (mgrStep s (.enable sn true)) tid = false)
    ∨ sn ∉ (mgrStep s (.enable sn true)).grills := by
  have hstep : mgrStep s (.enable sn true)
      = startListener (setDev s sn (enableGrillDev (getDev s sn) true)) sn := rfl
  rw [hstep]
  generalize setDev s sn (enableGrillDev (getDev s sn) true) = u
  cases hc : u.conns.lookup sn with
  | some tid =>
      by_cases hf : taskDoneFlag u tid = false
      · rw [startListener_noop_of_live u sn tid hc hf]
        exact Or.inl ⟨tid, hc, hf⟩
      · have h1 : startListener u sn = spawnTask u sn := by
          unfold startListener
          rw [hc]
          simp [hf]
        rw [h1]
        by_cases hg : sn ∈ u.grills
        · exact Or.inl ⟨u.nextId, spawnTask_lookup u sn hg, spawnTask_doneFlag u sn hg⟩
        · right
          rw [spawnTask_noop_of_not_grill u sn hg]
          exact hg
  | none =>
      have h1 : startListener u sn = spawnTask u sn := by
        unfold startListener
        rw [hc]
      rw [h1]
      by_cases hg : sn ∈ u.grills
      · exact Or.inl ⟨u.nextId, spawnTask_lookup u sn hg, spawnTask_doneFlag u sn hg⟩
      · right
        rw [spawnTask_noop_of_not_grill u sn hg]
        exact hg

/-- The second of two consecutive `enable_grill(sn, True)` calls creates no
task. -/
theorem enable_twice_tasks (s : MgrState) (sn : String) :
    (mgrStep (mgrStep s (.enable sn true)) (.enable sn true)).tasks
      = (mgrStep s (.enable sn true)).tasks := by
  rcases after_enable_shape s sn with ⟨tid, hc, hf⟩ | hg
  · have hc2 : (setDev (mgrStep s (.enable sn true)) sn
        (enableGrillDev (getDev (mgrStep s (.enable sn true)) sn) true)).conns.lookup sn
          = some tid := hc
    have hf2 : taskDoneFlag (setDev (mgrStep s (.enable sn true)) sn
        (enableGrillDev (getDev (mgrStep s (.enable sn true)) sn) true)) tid = false := hf
    show (startListener (setDev (mgrStep s (.enable sn true)) sn
        (enableGrillDev (getDev (mgrStep s (.enable sn true)) sn) true)) sn).tasks
      = (mgrStep s (.enable sn true)).tasks
    rw [startListener_noop_of_live _ sn tid hc2 hf2]
    rfl
  · show (startListener (setDev (mgrStep s (.enable sn true)) sn
        (enableGrillDev (getDev (mgrStep s (.enable sn true)) sn) true)) sn).tasks
      = (mgrStep s (.enable sn true)).tasks
    exact startListener_tasks_of_not_grill _ sn hg

theorem c10_empty_first_read_witness :
    loopIter { DevState.init with enabled := true } true .emptyFirstPacket 0
        = loopIter { DevState.init with enabled := true } true .timeoutNoData 0
  ∧ loopIter { DevState.init with enabled := true } true .emptyFirstPacket 0
        = loopIter { DevState.init with enabled := true } true .connectError 0
  ∧ (loopIter { DevState.init with enabled := true } true
        .emptyFirstPacket 0).1.rapidRetryCount
      = ({ DevState.init with enabled := true } : DevState).rapidRetryCount + 1 :=
  c10_empty_first_read { DevState.init with enabled := true } 0 rfl

/-! ### Manager theorems (C2, C6, C9) -/

/-- C2: along every sequence of manager operations at most one
not-yet-terminated Session Loop task exists per device, and a second
consecutive `enable_grill(sn, True)` creates no task beyond the first. -/
theorem c2_single_session_loop (ops : List MgrOp) (sn : String) :
    (liveTasks (mgrRun ops) sn).length ≤ 1
  ∧ (mgrRun (ops ++ [MgrOp.enable sn true, MgrOp.enable sn true])).tasks
      = (mgrRun (ops ++ [MgrOp.enable sn true])).tasks := by
  constructor
  · exact liveTasks_length_le_one _ (MgrInv_mgrRun ops) sn
  · show ((ops ++ [MgrOp.enable sn true, MgrOp.enable sn true]).foldl mgrStep mgrInit).tasks
      = ((ops ++ [MgrOp.enable sn true]).foldl mgrStep mgrInit).tasks
    rw [List.foldl_append, List.foldl_append]
    simp only [List.foldl_cons, List.foldl_nil]
    exact enable_twice_tasks (ops.foldl mgrStep mgrInit) sn

theorem getDev_setDev_same (s : MgrState) (sn : String) (d : DevState) :
    getDev (setDev s sn d) sn = d := by
  unfold getDev setDev
  rw [lookup_cons_self]
  rfl

theorem getDev_setDev_other (s : MgrState) (sn x : String) (d : DevState)
    (h : ¬ x = sn) :
    getDev (setDev s sn d) x = getDev s x := by
  unfold getDev setDev
  rw [lookup_cons_ne _ h]

theorem enableGrillDev_connA (d : DevState) (b : Bool) :
    (enableGrillDev d b).connectionAttempts = d.connectionAttempts := by
  unfold enableGrillDev
  split <;> rfl

theorem failHandle_connA (s : DevState) (now : Nat) :
    (failHandle s now).1.connectionAttempts = s.connectionAttempts := by
  rcases hb : s.backoffStart with - | t <;> simp [failHandle, hb] <;>
    split_ifs <;> rfl

theorem loopIter_connA (d : DevState) (home : Bool) (r : AttemptResult) (now : Nat) :
    d.connectionAttempts ≤ (loopIter d home r now).1.connectionAttempts := by
  unfold loopIter
  split
  · exact Nat.le_refl _
  · split
    · exact Nat.le_refl _
    · cases r <;>
        simp [handshakeReset, failHandle_connA]

theorem getDev_connA_spawn (u : MgrState) (sn x : String) :
    (getDev (spawnTask u sn) x).connectionAttempts
      = (getDev u x).connectionAttempts := by
  unfold spawnTask
  split
  · by_cases hx : x = sn
    · subst hx
      rw [getDev_setDev_same]
    · rw [getDev_setDev_other _ _ _ _ hx]
      rfl
  · rfl

theorem startListener_connA (u : MgrState) (sn x : String) :
    (getDev (startListener u sn) x).connectionAttempts
      = (getDev u x).connectionAttempts := by
  unfold startListener
  split
  · split
    · rfl
    · exact getDev_connA_spawn u sn x
  · exact getDev_connA_spawn u sn x

theorem stopListener_devs (u : MgrState) (sn : String) :
    (stopListener u sn).devs = u.devs := by
  unfold stopListener
  split
  · split <;> rfl
  · rfl

theorem getDev_of_devs_eq {u v : MgrState} (h : u.devs = v.devs) (x : String) :
    getDev u x = getDev v x := by
  unfold getDev
  rw [h]

theorem spawnTask_api (u : MgrState) (sn : String) :
    (spawnTask u sn).apiLoginCalls = u.apiLoginCalls
  ∧ (spawnTask u sn).apiGrillsCalls = u.apiGrillsCalls := by
  unfold spawnTask
  split <;> exact ⟨rfl, rfl⟩

theorem startListener_api (u : MgrState) (sn : String) :
    (startListener u sn).apiLoginCalls = u.apiLoginCalls
  ∧ (startListener u sn).apiGrillsCalls = u.apiGrillsCalls := by
  unfold startListener
  split
  · split
    · exact ⟨rfl, rfl⟩
    · exact spawnTask_api u sn
  · exact spawnTask_api u sn

theorem stopListener_api (u : MgrState) (sn : String) :
    (stopListener u sn).apiLoginCalls = u.apiLoginCalls
  ∧ (stopListener u sn).apiGrillsCalls = u.apiGrillsCalls := by
  unfold stopListener
  split
  · split <;> exact ⟨rfl, rfl⟩
  · exact ⟨rfl, rfl⟩

theorem enableGrill_connA (s : MgrState) (sn b x) :
    (getDev (enableGrill s sn b) x).connectionAttempts
      = (getDev s x).connectionAttempts := by
  have hsd : ∀ y, (getDev (setDev s sn (enableGrillDev (getDev s sn) b)) y).connectionAttempts
      = (getDev s y).connectionAttempts := by
    intro y
    by_cases hy : y = sn
    · subst hy
      rw [getDev_setDev_same, enableGrillDev_connA]
    · rw [getDev_setDev_other _ _ _ _ hy]
  unfold enableGrill
  split
  · rw [startListener_connA]
    exact hsd x
  · rw [getDev_of_devs_eq (stopListener_devs _ sn) x]
    exact hsd x

theorem enableGrill_api (s : MgrState) (sn : String) (b : Bool) :
    (enableGrill s sn b).apiLoginCalls = s.apiLoginCalls
  ∧ (enableGrill s sn b).apiGrillsCalls = s.apiGrillsCalls := by
  unfold enableGrill
  split
  · exact startListener_api _ sn
  · exact stopListener_api _ sn

theorem foldl_api_connA_eq {f : MgrState → String → MgrState}
    (hf : ∀ acc y,
      (f acc y).apiLoginCalls = acc.apiLoginCalls
      ∧ (f acc y).apiGrillsCalls = acc.apiGrillsCalls
      ∧ ∀ x, (getDev (f acc y) x).connectionAttempts = (getDev acc x).connectionAttempts) :
    ∀ (l : List String) (u : MgrState),
      (l.foldl f u).apiLoginCalls = u.apiLoginCalls
      ∧ (l.foldl f u).apiGrillsCalls = u.apiGrillsCalls
      ∧ ∀ x, (getDev (l.foldl f u) x).connectionAttempts
          = (getDev u x).connectionAttempts := by
  intro l
  induction l with
  | nil => exact fun u => ⟨rfl, rfl, fun x => rfl⟩
  | cons a l ih =>
      intro u
      obtain ⟨he1, he2, he3⟩ := hf u a
      obtain ⟨hi1, hi2, hi3⟩ := ih (f u a)
      exact ⟨by rw [List.foldl_cons, hi1, he1],
             by rw [List.foldl_cons, hi2, he2],
             fun x => by rw [List.foldl_cons, hi3 x, he3 x]⟩

/-- C6 (amended): the login-call, device-list-call and per-device
connection-attempt counters never decrease across any manager operation;
the per-device reconnect counter, by contrast, is not monotone (see the
counterexample) since the source resets it on success, on entering the
backoff tier, and on enable. -/
theorem c6_monotone_counters (s : MgrState) (op : MgrOp) (sn : String) :
    s.apiLoginCalls ≤ (mgrStep s op).apiLoginCalls
  ∧ s.apiGrillsCalls ≤ (mgrStep s op).apiGrillsCalls
  ∧ (getDev s sn).connectionAttempts
      ≤ (getDev (mgrStep s op) sn).connectionAttempts := by
  cases op with
  | login => exact ⟨Nat.le_succ _, Nat.le_refl _, Nat.le_refl _⟩
  | grillsCallFail => exact ⟨Nat.le_refl _, Nat.le_succ _, Nat.le_refl _⟩
  | discover serials =>
      have hstep : ∀ (acc : MgrState) (y : String),
          ((if acc.devs.lookup y = none then
              setDev acc y { DevState.init with enabled := true } else acc)).apiLoginCalls
              = acc.apiLoginCalls
          ∧ ((if acc.devs.lookup y = none then
              setDev acc y { DevState.init with enabled := true } else acc)).apiGrillsCalls
              = acc.apiGrillsCalls
          ∧ ∀ x, (getDev (if acc.devs.lookup y = none then
              setDev acc y { DevState.init with enabled := true } else acc) x).connectionAttempts
              = (getDev acc x).connectionAttempts := by
        intro acc y
        split
        · refine ⟨rfl, rfl, fun x => ?_⟩
          rename_i hnone
          by_cases hx : x = y
          · subst hx
            rw [getDev_setDev_same]
            unfold getDev
            rw [hnone]
            rfl
          · rw [getDev_setDev_other _ _ _ _ hx]
        · exact ⟨rfl, rfl, fun x => rfl⟩
      obtain ⟨h1, h2, h3⟩ := foldl_api_connA_eq hstep serials
        { s with apiGrillsCalls := s.apiGrillsCalls + 1, grills := serials }
      exact ⟨le_of_eq h1.symm,
             Nat.le_trans (Nat.le_succ _) (le_of_eq h2.symm),
             le_of_eq (h3 sn).symm⟩
  | enable x b =>
      obtain ⟨h1, h2⟩ := enableGrill_api s x b
      exact ⟨le_of_eq h1.symm, le_of_eq h2.symm,
             le_of_eq (enableGrill_connA s x b sn).symm⟩
  | connectNeeded x =>
      have hgoal : mgrStep s (MgrOp.connectNeeded x) = connectIfNeeded s x := rfl
      rw [hgoal]
      unfold connectIfNeeded
      split
      · exact ⟨Nat.le_refl _, Nat.le_refl _, Nat.le_refl _⟩
      · obtain ⟨h1, h2⟩ := enableGrill_api s x true
        exact ⟨le_of_eq h1.symm, le_of_eq h2.symm,
               le_of_eq (enableGrill_connA s x true sn).symm⟩
  | iter x home r now =>
      have hgoal : mgrStep s (MgrOp.iter x home r now) = iterDev s x home r now := rfl
      rw [hgoal]
      unfold iterDev
      split
      · exact ⟨Nat.le_refl _, Nat.le_refl _, Nat.le_refl _⟩
      · split
        · obtain ⟨ha1, ha2⟩ := stopListener_api
            (setDev s x (loopIter (getDev s x) home r now).1) x
          refine ⟨by rw [ha1]; exact Nat.le_refl _, by rw [ha2]; exact Nat.le_refl _, ?_⟩
          rw [getDev_of_devs_eq (stopListener_devs _ x) sn]
          by_cases hx : sn = x
          · subst hx
            rw [getDev_setDev_same]
            exact loopIter_connA _ home r now
          · rw [getDev_setDev_other _ _ _ _ hx]
        · refine ⟨Nat.le_refl _, Nat.le_refl _, ?_⟩
          by_cases hx : sn = x
          · subst hx
            rw [getDev_setDev_same]
            exact loopIter_connA _ home r now
          · rw [getDev_setDev_other _ _ _ _ hx]
  | taskEnds tid => exact ⟨Nat.le_refl _, Nat.le_refl _, Nat.le_refl _⟩
  | syncLogin v =>
      have hgoal : mgrStep s (MgrOp.syncLogin v)
          = if s.syncedLogin then s
            else { s with apiLoginCalls := v + s.apiLoginCalls, syncedLogin := true } := rfl
      rw [hgoal]
      split
      · exact ⟨Nat.le_refl _, Nat.le_refl _, Nat.le_refl _⟩
      · exact ⟨Nat.le_add_left _ v, Nat.le_refl _, Nat.le_refl _⟩
  | syncGrills v =>
      have hgoal : mgrStep s (MgrOp.syncGrills v)
          = if s.syncedGrills then s
            else { s with apiGrillsCalls := v + s.apiGrillsCalls, syncedGrills := true } := rfl
      rw [hgoal]
      split
      · exact ⟨Nat.le_refl _, Nat.le_refl _, Nat.le_refl _⟩
      · exact ⟨Nat.le_refl _, Nat.le_add_left _ v, Nat.le_refl _⟩
  | syncConnAttempts x v =>
      refine ⟨Nat.le_refl _, Nat.le_refl _, ?_⟩
      show (getDev s sn).connectionAttempts
        ≤ (getDev (setDev s x _) sn).connectionAttempts
      by_cases hx : sn = x
      · subst hx
        rw [getDev_setDev_same]
        exact Nat.le_add_left _ v
      · rw [getDev_setDev_other _ _ _ _ hx]
  | syncReconnect x v =>
      refine ⟨Nat.le_refl _, Nat.le_refl _, ?_⟩
      show (getDev s sn).connectionAttempts
        ≤ (getDev (setDev s x _) sn).connectionAttempts
      by_cases hx : sn = x
      · subst hx
        rw [getDev_setDev_same]
      · rw [getDev_setDev_other _ _ _ _ hx]
  | startAll =>
      have hstep : ∀ (acc : MgrState) (y : String),
          ((if (getDev acc y).enabled = true then startListener acc y else acc)).apiLoginCalls
              = acc.apiLoginCalls
          ∧ ((if (getDev acc y).enabled = true then startListener acc y else acc)).apiGrillsCalls
              = acc.apiGrillsCalls
          ∧ ∀ x, (getDev (if (getDev acc y).enabled = true then startListener acc y else acc)
                x).connectionAttempts
              = (getDev acc x).connectionAttempts := by
        intro acc y
        split
        · obtain ⟨h1, h2⟩ := startListener_api acc y
          exact ⟨h1, h2, fun x => startListener_connA acc y x⟩
        · exact ⟨rfl, rfl, fun x => rfl⟩
      obtain ⟨h1, h2, h3⟩ := foldl_api_connA_eq hstep s.grills s
      exact ⟨le_of_eq h1.symm, le_of_eq h2.symm, le_of_eq (h3 sn).symm⟩

/-- C6 counterexample: driving one grill through five consecutive failed
connection attempts leaves its reconnect counter at 1; the next
`enable_grill(sn, True)` resets it to 0 — a manager operation decreased a
diagnostic counter. -/
theorem c6_counterexample :
    (getDev (mgrRun backoffOps) "g").reconnectCounter = 1
  ∧ (getDev (mgrRun (backoffOps ++ [.enable "g" true])) "g").reconnectCounter = 0 := by
  exact ⟨by decide, by decide⟩

/-- C9: reseeding a globally-shared counter adds the restored value on the
first call and is a state-level no-op on any later call this session;
reseeding a per-device counter is additive on every call. -/
theorem c9_counter_reseed (s : MgrState) (v w : Nat) (sn : String)
    (h : s.syncedLogin = false) :
    (mgrStep s (.syncLogin v)).apiLoginCalls = v + s.apiLoginCalls
  ∧ mgrStep (mgrStep s (.syncLogin v)) (.syncLogin w) = mgrStep s (.syncLogin v)
  ∧ (getDev (mgrStep s (.syncConnAttempts sn v)) sn).connectionAttempts
      = v + (getDev s sn).connectionAttempts
  ∧ (getDev (mgrStep (mgrStep s (.syncConnAttempts sn v)) (.syncConnAttempts sn w))
        sn).connectionAttempts
      = w + (v + (getDev s sn).connectionAttempts) := by
  refine ⟨?_, ?_, ?_, ?_⟩
  · show (if s.syncedLogin then s else _).apiLoginCalls = v + s.apiLoginCalls
    rw [h]
    rfl
  · show mgrStep (if s.syncedLogin then s else _) (.syncLogin w)
      = (if s.syncedLogin then s else _)
    rw [h]
    rfl
  · show (getDev (setDev s sn _) sn).connectionAttempts = _
    rw [getDev_setDev_same]
  · have h3 : (getDev (mgrStep s (MgrOp.syncConnAttempts sn v)) sn).connectionAttempts
        = v + (getDev s sn).connectionAttempts := by
      show (getDev (setDev s sn _) sn).connectionAttempts = _
      rw [getDev_setDev_same]
    show (getDev (setDev (mgrStep s (MgrOp.syncConnAttempts sn v)) sn _)
        sn).connectionAttempts = w + (v + (getDev s sn).connectionAttempts)
    rw [getDev_setDev_same]
    show w + (getDev (mgrStep s (MgrOp.syncConnAttempts sn v)) sn).connectionAttempts
      = w + (v + (getDev s sn).connectionAttempts)
    rw [h3]

theorem c9_counter_reseed_witness :
    (mgrStep mgrInit (.syncLogin 7)).apiLoginCalls = 7 + mgrInit.apiLoginCalls
  ∧ mgrStep (mgrStep mgrInit (.syncLogin 7)) (.syncLogin 5)
      = mgrStep mgrInit (.syncLogin 7)
  ∧ (getDev (mgrStep mgrInit (.syncConnAttempts "g" 7)) "g").connectionAttempts
      = 7 + (getDev mgrInit "g").connectionAttempts
  ∧ (getDev (mgrStep (mgrStep mgrInit (.syncConnAttempts "g" 7))
        (.syncConnAttempts "g" 5)) "g").connectionAttempts
      = 5 + (7 + (getDev mgrInit "g").connectionAttempts) :=
  c9_counter_reseed mgrInit 7 5 "g" rfl

end OttoWildeG32
